import Mathlib

/-!
Verification of the task/log state machine of the legacy-react-app
repository (src/src/App.tsx, hook `useTaskManager`).

The hook's state is three `useState` cells: `tasks : Task[]`,
`nextId : number`, `logs : LogEntry[]`.  We embed it as a record
`SessionState` and each operation of the hook as a state-passing
function on the committed state, which is what a call observes when it
runs in its own render (each operation here is a single event-handler
dispatch).

Calls that share one render closure behave differently: React state is
a per-render snapshot, so a read of `nextId` inside the closure sees
the value captured at render time even after an earlier call in the
same tick queued `setNextId(prev => prev + 1)`, while the functional
updaters themselves accumulate on the pending state.  `addTaskSameTick`
and `startupEffect` embed exactly that semantics for the startup
`useEffect` of App.tsx (lines 240-249), which issues two `addTask`
calls in one `setTimeout` callback.

`LogEntry.id` is produced by `Date.now() + Math.random()` and
`LogEntry.timestamp` by `new Date().toLocaleTimeString()`; both come
from the environment, so each operation takes them as an explicit
`LogMeta` argument.  No claim constrains their values.
-/

namespace TaskApp

/-- The `interface Task` of App.tsx: id, description, completed. -/
structure Task where
  id : Int
  description : String
  completed : Bool
deriving DecidableEq, Repr

/-- The `interface LogEntry` of App.tsx: id, timestamp, message. -/
structure LogEntry where
  id : Int
  timestamp : String
  message : String
deriving DecidableEq, Repr

/-- Environment-supplied metadata for one log emission
(`Date.now() + Math.random()` and `toLocaleTimeString()`). -/
structure LogMeta where
  id : Int
  timestamp : String
deriving DecidableEq, Repr

/-- The state of the `useTaskManager` hook: the three `useState` cells. -/
structure SessionState where
  tasks : List Task
  nextId : Int
  logs : List LogEntry
deriving DecidableEq, Repr

/-- The `useState` initial values: `[]`, `1`, `[]`. -/
def initState : SessionState := { tasks := [], nextId := 1, logs := [] }

/-- Source `logOutput(msg)`: builds a LogEntry from the environment metadata and
the message and appends it to `logs` (`setLogs(prev => [...prev, entry])`). -/
def logOutput (meta : LogMeta) (msg : String) (s : SessionState) : SessionState :=
  { s with logs := s.logs ++ [{ id := meta.id, timestamp := meta.timestamp, message := msg }] }

/-- Source `addTask(description)`: creates `{ id: nextId, description, completed: false }`,
appends it to `tasks`, increments `nextId`, then logs
`` `Task added: ${description}` ``. -/
def addTask (meta : LogMeta) (description : String) (s : SessionState) : SessionState :=
  let newTask : Task := { id := s.nextId, description := description, completed := false }
  let s1 : SessionState := { s with tasks := s.tasks ++ [newTask], nextId := s.nextId + 1 }
  logOutput meta ((("Task added: ") : String) ++ description) s1

/-- The scan inside `completeTask`: `prev.map(t => ...)` together with the
`found` flag the mapper sets.  Returns the mapped list and the final flag. -/
def completeScan (id : Int) : List Task → List Task × Bool
  | [] => ([], false)
  | t :: ts =>
    let r := completeScan id ts
    if t.id == id then ({ t with completed := true } :: r.1, true)
    else (t :: r.1, r.2)

/-- Source `completeTask(id)`: maps over `tasks`, setting `completed = true` on
entries whose id matches (recording whether any matched), then logs
`` `Task ${id} done.` `` on a match and `"ID not found."` otherwise. -/
def completeTask (meta : LogMeta) (id : Int) (s : SessionState) : SessionState :=
  let r := completeScan id s.tasks
  let s1 : SessionState := { s with tasks := r.1 }
  if r.2 then logOutput meta ((("Task ") : String) ++ toString id ++ (" done.")) s1
  else logOutput meta (("ID not found.")) s1

/-- Source `completeTask` as a TS function value: the arrow function body has no
`return` statement, so the call evaluates to `undefined`, embedded as
`Unit`.  The pair is (post-state, returned value). -/
def completeTaskRet (meta : LogMeta) (id : Int) (s : SessionState) :
    SessionState × Unit :=
  (completeTask meta id s, ())

/-- Source `resetSystem()`: `setTasks([]); setNextId(1); setLogs([])` followed by
`logOutput("System reset.")`. -/
def resetSystem (meta : LogMeta) (_s : SessionState) : SessionState :=
  logOutput meta (("System reset.")) { tasks := [], nextId := 1, logs := [] }

/-- Source `addTask` as executed when several calls share one render
closure (React state is a per-render snapshot): the new task's id reads
`nextId` from the snapshot `snap` captured by the closure, while the
functional updaters `setTasks(prev => [...prev, newTask])`,
`setNextId(prev => prev + 1)` and the `setLogs(prev => ...)` inside
`logOutput` apply to the pending state `cur`.  A call that runs alone
in its own render is the `snap = cur` instance (see
`addTaskSameTick_single`). -/
def addTaskSameTick (meta : LogMeta) (description : String)
    (snap cur : SessionState) : SessionState :=
  let newTask : Task := { id := snap.nextId, description := description, completed := false }
  let c1 : SessionState := { cur with tasks := cur.tasks ++ [newTask], nextId := cur.nextId + 1 }
  logOutput meta ((("Task added: ") : String) ++ description) c1

/-- The startup effect of App.tsx (lines 240-249): one `setTimeout`
callback whose closure captured the state of the render it was created
in (`snap`), running `logOutput("Initializing TaskManager...")` and then
two `addTask` calls in the same tick.  Reads of `nextId` see `snap`;
all updates accumulate functionally on the pending state. -/
def startupEffect (m1 m2 m3 : LogMeta) (snap : SessionState) : SessionState :=
  let c1 := logOutput m1 (("Initializing TaskManager...")) snap
  let c2 := addTaskSameTick m2 (("Refactor Legacy Code")) snap c1
  addTaskSameTick m3 (("Upload Multiple Files")) snap c2

/-- Fixed metadata for concrete evaluations. -/
def m0 : LogMeta := { id := 0, timestamp := ("") }

/-! ### Basic lemmas about the scan inside `completeTask` -/

lemma completeScan_fst_map (id : Int) (l : List Task) :
    (completeScan id l).1
      = l.map (fun t => if t.id == id then { t with completed := true } else t) := by
  induction l with
  | nil => rfl
  | cons t ts ih =>
    by_cases h : t.id = id
    · simp [completeScan, beq_iff_eq.mpr h, h, ih]
    · simp [completeScan, beq_eq_false_iff_ne.mpr h, h, ih]

lemma completeScan_snd_any (id : Int) (l : List Task) :
    (completeScan id l).2 = l.any (fun t => t.id == id) := by
  induction l with
  | nil => rfl
  | cons t ts ih =>
    by_cases h : (t.id == id) = true
    · simp [completeScan, h]
    · simp [completeScan, h, ih]

lemma completeScan_map_id (id : Int) (l : List Task) :
    (completeScan id l).1.map Task.id = l.map Task.id := by
  rw [completeScan_fst_map, List.map_map]
  apply List.map_congr_left
  intro t _
  by_cases h : t.id = id
  · simp [h]
  · simp [h]

lemma completeScan_length (id : Int) (l : List Task) :
    (completeScan id l).1.length = l.length := by
  rw [completeScan_fst_map, List.length_map]

lemma completeScan_forall₂ (id : Int) (l : List Task) :
    List.Forall₂
      (fun t' t => t'.id = t.id ∧ t'.description = t.description
        ∧ t'.completed = (t.completed || (t.id == id)))
      (completeScan id l).1 l := by
  induction l with
  | nil => exact List.Forall₂.nil
  | cons t ts ih =>
    by_cases h : (t.id == id) = true
    · simp only [completeScan, if_pos h]
      exact List.Forall₂.cons ⟨rfl, rfl, by simp [h]⟩ ih
    · have hf : (t.id == id) = false := by simpa using h
      simp only [completeScan, if_neg h]
      exact List.Forall₂.cons ⟨rfl, rfl, by simp [hf]⟩ ih

lemma completeScan_completed (id : Int) (l : List Task) :
    ∀ t' ∈ (completeScan id l).1, t'.id = id → t'.completed = true := by
  induction l with
  | nil => intro t' h; simp [completeScan] at h
  | cons t ts ih =>
    intro t' hmem hid
    by_cases h : (t.id == id) = true
    · simp only [completeScan, if_pos h, List.mem_cons] at hmem
      rcases hmem with h1 | h2
      · rw [h1]
      · exact ih t' h2 hid
    · simp only [completeScan, if_neg h, List.mem_cons] at hmem
      rcases hmem with h1 | h2
      · rw [h1] at hid
        exact absurd (beq_iff_eq.mpr hid) h
      · exact ih t' h2 hid

/-! ### Shape lemmas for `completeTask` -/

lemma completeTask_tasks (m : LogMeta) (id : Int) (s : SessionState) :
    (completeTask m id s).tasks = (completeScan id s.tasks).1 := by
  simp only [completeTask]
  split <;> rfl

lemma completeTask_nextId (m : LogMeta) (id : Int) (s : SessionState) :
    (completeTask m id s).nextId = s.nextId := by
  simp only [completeTask]
  split <;> rfl

lemma completeTask_logs (m : LogMeta) (id : Int) (s : SessionState) :
    (completeTask m id s).logs = s.logs ++
      [{ id := m.id, timestamp := m.timestamp,
         message := if s.tasks.any (fun t => t.id == id)
                    then (("Task ") : String) ++ toString id ++ (" done.")
                    else ("ID not found.") }] := by
  simp only [completeTask, completeScan_snd_any]
  by_cases h : s.tasks.any (fun t => t.id == id) = true
  · simp [h, logOutput]
  · simp [h, logOutput]

/-- The "done" message can never coincide with the "not found" message:
the first character differs. -/
lemma taskDone_ne_notFound (x : String) :
    (("Task ") : String) ++ x ++ (" done.") ≠ ("ID not found.") := by
  intro h
  have h2 : (((("Task ") : String) ++ x ++ (" done.")).data)
      = (("ID not found.") : String).data := congrArg String.data h
  rw [String.data_append, String.data_append] at h2
  have e1 : (("Task ") : String).data = ['T', 'a', 's', 'k', ' '] := rfl
  have e2 : (("ID not found.") : String).data
      = ['I', 'D', ' ', 'n', 'o', 't', ' ', 'f', 'o', 'u', 'n', 'd', '.'] := rfl
  rw [e1, e2] at h2
  simp only [List.cons_append, List.nil_append] at h2
  injection h2 with hc _
  exact absurd hc (by decide)

lemma exists_iff_any (id : Int) (l : List Task) :
    (∃ t ∈ l, t.id = id) ↔ l.any (fun t => t.id == id) = true := by
  simp

lemma singletonAppend_inj {α : Type} {l : List α} {a b : α}
    (h : l ++ [a] = l ++ [b]) : a = b := by
  simpa using h

lemma completeTask_done_iff (s : SessionState) (m : LogMeta) (id : Int) :
    (completeTask m id s).logs
        = s.logs ++ [{ id := m.id, timestamp := m.timestamp,
                       message := (("Task ") : String) ++ toString id ++ (" done.") }]
      ↔ ∃ t ∈ s.tasks, t.id = id := by
  have hlogs := completeTask_logs m id s
  by_cases h : s.tasks.any (fun t => t.id == id) = true
  · rw [if_pos h] at hlogs
    exact ⟨fun _ => (exists_iff_any id s.tasks).mpr h, fun _ => hlogs⟩
  · rw [if_neg h] at hlogs
    refine ⟨fun hEq => ?_, fun he => (h ((exists_iff_any id s.tasks).mp he)).elim⟩
    have hab := singletonAppend_inj (hlogs.symm.trans hEq)
    exact ((taskDone_ne_notFound (toString id)) (congrArg LogEntry.message hab).symm).elim

lemma completeTask_notFound_iff (s : SessionState) (m : LogMeta) (id : Int) :
    (completeTask m id s).logs
        = s.logs ++ [{ id := m.id, timestamp := m.timestamp, message := ("ID not found.") }]
      ↔ ¬ ∃ t ∈ s.tasks, t.id = id := by
  have hlogs := completeTask_logs m id s
  by_cases h : s.tasks.any (fun t => t.id == id) = true
  · rw [if_pos h] at hlogs
    have hex : ∃ t ∈ s.tasks, t.id = id := (exists_iff_any id s.tasks).mpr h
    refine ⟨fun hEq => ?_, fun hnot => (hnot hex).elim⟩
    have hab := singletonAppend_inj (hlogs.symm.trans hEq)
    exact ((taskDone_ne_notFound (toString id)) (congrArg LogEntry.message hab)).elim
  · rw [if_neg h] at hlogs
    exact ⟨fun _ he => h ((exists_iff_any id s.tasks).mp he), fun _ => hlogs⟩

/-! ### Claim theorems -/

/-- C1: for every session state and integer id, `completeTask(id)` appends
the log entry `"Task {id} done."` if and only if some task in the current
task sequence has that id, and appends `"ID not found."` if and only if
no task has that id. -/
theorem completeTask_appends_done_iff (s : SessionState) (m : LogMeta) (id : Int) :
    ((completeTask m id s).logs
        = s.logs ++ [{ id := m.id, timestamp := m.timestamp,
                       message := (("Task ") : String) ++ toString id ++ (" done.") }]
      ↔ ∃ t ∈ s.tasks, t.id = id)
    ∧ ((completeTask m id s).logs
        = s.logs ++ [{ id := m.id, timestamp := m.timestamp, message := ("ID not found.") }]
      ↔ ¬ ∃ t ∈ s.tasks, t.id = id) :=
  ⟨completeTask_done_iff s m id, completeTask_notFound_iff s m id⟩

/-- C3: after any `resetSystem()` call, from any session state, `tasks` is
empty, `nextId` is `1`, and `logs` holds exactly one entry, whose message
is `"System reset."`. -/
theorem resetSystem_result (s : SessionState) (m : LogMeta) :
    (resetSystem m s).tasks = [] ∧ (resetSystem m s).nextId = 1
    ∧ (resetSystem m s).logs.length = 1
    ∧ ∀ e ∈ (resetSystem m s).logs, e.message = ("System reset.") := by
  refine ⟨rfl, rfl, rfl, ?_⟩
  intro e he
  simp only [resetSystem, logOutput, List.nil_append, List.mem_singleton] at he
  rw [he]

/-- C7: when no task has the given id, `completeTask(id)` leaves the task
sequence and `nextId` unchanged and appends exactly one
`"ID not found."` log entry. -/
theorem completeTask_notFound_frame (s : SessionState) (m : LogMeta) (id : Int)
    (h : ∀ t ∈ s.tasks, t.id ≠ id) :
    completeTask m id s
      = { s with
          logs := s.logs ++
            [{ id := m.id, timestamp := m.timestamp, message := ("ID not found.") }] } := by
  have hany : s.tasks.any (fun t => t.id == id) = false := by
    simpa using h
  have htasks : (completeTask m id s).tasks = s.tasks := by
    rw [completeTask_tasks, completeScan_fst_map]
    conv_rhs => rw [← List.map_id s.tasks]
    apply List.map_congr_left
    intro t ht
    simp [h t ht]
  have hnext := completeTask_nextId m id s
  have hlogs := completeTask_logs m id s
  rw [hany] at hlogs
  simp only [Bool.false_eq_true, if_false] at hlogs
  have heta : completeTask m id s
      = ⟨(completeTask m id s).tasks, (completeTask m id s).nextId,
         (completeTask m id s).logs⟩ := rfl
  rw [heta, htasks, hnext, hlogs]

/-- Witness for C7 at a concrete state and id. -/
theorem completeTask_notFound_frame_witness :
    (∀ t ∈ ({ tasks := [{ id := 1, description := ("A"), completed := false }],
              nextId := 2, logs := [] } : SessionState).tasks, t.id ≠ 5)
    ∧ completeTask m0 5
        { tasks := [{ id := 1, description := ("A"), completed := false }],
          nextId := 2, logs := [] }
      = { tasks := [{ id := 1, description := ("A"), completed := false }],
          nextId := 2,
          logs := [] ++
            [{ id := m0.id, timestamp := m0.timestamp, message := ("ID not found.") }] } :=
  ⟨by decide, completeTask_notFound_frame _ m0 5 (by decide)⟩

/-- C10: `logOutput(message)` changes only `logs`, appending one entry
carrying the given message; `tasks` and `nextId` are untouched. -/
theorem logOutput_frame (s : SessionState) (m : LogMeta) (msg : String) :
    (logOutput m msg s).tasks = s.tasks ∧ (logOutput m msg s).nextId = s.nextId
    ∧ (logOutput m msg s).logs
        = s.logs ++ [{ id := m.id, timestamp := m.timestamp, message := msg }] :=
  ⟨rfl, rfl, rfl⟩

/-- C8: when the id matches, `completeTask(id)` completes the matching
task and leaves every other task's fields (and every task's id and
description) unchanged; a second call on the same id keeps
`completed = true` and appends another "done" log entry.  The `Forall₂`
relates post-tasks to pre-tasks pointwise in order. -/
theorem completeTask_found_frame (s : SessionState) (m m' : LogMeta) (id : Int)
    (h : ∃ t ∈ s.tasks, t.id = id) :
    List.Forall₂
      (fun t' t => t'.id = t.id ∧ t'.description = t.description
        ∧ t'.completed = (t.completed || (t.id == id)))
      (completeTask m id s).tasks s.tasks
    ∧ (∀ t' ∈ (completeTask m id s).tasks, t'.id = id → t'.completed = true)
    ∧ (∀ t' ∈ (completeTask m' id (completeTask m id s)).tasks,
        t'.id = id → t'.completed = true)
    ∧ (completeTask m' id (completeTask m id s)).logs
        = (completeTask m id s).logs
          ++ [{ id := m'.id, timestamp := m'.timestamp,
                message := (("Task ") : String) ++ toString id ++ (" done.") }] := by
  have hmem : ∃ t ∈ (completeTask m id s).tasks, t.id = id := by
    obtain ⟨t, ht, hid⟩ := h
    have hin : id ∈ (completeTask m id s).tasks.map Task.id := by
      rw [completeTask_tasks, completeScan_map_id]
      exact List.mem_map.mpr ⟨t, ht, hid⟩
    obtain ⟨t', ht', hid'⟩ := List.mem_map.mp hin
    exact ⟨t', ht', hid'⟩
  refine ⟨?_, ?_, ?_, ?_⟩
  · rw [completeTask_tasks]
    exact completeScan_forall₂ id s.tasks
  · intro t' ht' hid
    rw [completeTask_tasks] at ht'
    exact completeScan_completed id s.tasks t' ht' hid
  · intro t' ht' hid
    rw [completeTask_tasks] at ht'
    exact completeScan_completed id (completeTask m id s).tasks t' ht' hid
  · exact (completeTask_done_iff (completeTask m id s) m' id).mpr hmem

/-- Witness for C8: two tasks, complete id 1; the theorem is applied at
this concrete state. -/
theorem completeTask_found_frame_witness :
    (∃ t ∈ ({ tasks := [{ id := 1, description := ("A"), completed := false },
                        { id := 2, description := ("B"), completed := false }],
              nextId := 3, logs := [] } : SessionState).tasks, t.id = 1)
    ∧ (List.Forall₂
        (fun t' t => t'.id = t.id ∧ t'.description = t.description
          ∧ t'.completed = (t.completed || (t.id == 1)))
        (completeTask m0 1
          { tasks := [{ id := 1, description := ("A"), completed := false },
                      { id := 2, description := ("B"), completed := false }],
            nextId := 3, logs := [] }).tasks
        ({ tasks := [{ id := 1, description := ("A"), completed := false },
                     { id := 2, description := ("B"), completed := false }],
           nextId := 3, logs := [] } : SessionState).tasks
      ∧ (∀ t' ∈ (completeTask m0 1
            { tasks := [{ id := 1, description := ("A"), completed := false },
                        { id := 2, description := ("B"), completed := false }],
              nextId := 3, logs := [] }).tasks, t'.id = 1 → t'.completed = true)
      ∧ (∀ t' ∈ (completeTask m0 1 (completeTask m0 1
            { tasks := [{ id := 1, description := ("A"), completed := false },
                        { id := 2, description := ("B"), completed := false }],
              nextId := 3, logs := [] })).tasks, t'.id = 1 → t'.completed = true)
      ∧ (completeTask m0 1 (completeTask m0 1
            { tasks := [{ id := 1, description := ("A"), completed := false },
                        { id := 2, description := ("B"), completed := false }],
              nextId := 3, logs := [] })).logs
          = (completeTask m0 1
              { tasks := [{ id := 1, description := ("A"), completed := false },
                          { id := 2, description := ("B"), completed := false }],
                nextId := 3, logs := [] }).logs
            ++ [{ id := m0.id, timestamp := m0.timestamp,
                  message := (("Task ") : String) ++ toString (1 : Int) ++ (" done.") }]) :=
  ⟨by decide, completeTask_found_frame _ m0 m0 1 (by decide)⟩

/-- C5 counterexample: in a state where two tasks share id 1,
`completeTask(1)` sets `completed = true` on BOTH tasks; the claim says
every matching task after the first stays unchanged, so the second task
should still have `completed = false`. -/
theorem completeTask_dup_cex :
    ((completeTask m0 1
        { tasks := [{ id := 1, description := ("A"), completed := false },
                    { id := 1, description := ("B"), completed := false }],
          nextId := 2, logs := [] }).tasks.map Task.completed) = [true, true] := by
  decide

/-- C5 amended: in every session state in which two or more tasks share
an id, `completeTask(id)` sets `completed = true` on EVERY task whose id
matches (the `map` in the source updates all matches), leaving ids,
descriptions and non-matching tasks unchanged. -/
theorem completeTask_dup_updates_all (s : SessionState) (m : LogMeta) (id : Int)
    (_h : ¬ (s.tasks.map Task.id).Nodup) :
    List.Forall₂
      (fun t' t => t'.id = t.id ∧ t'.description = t.description
        ∧ t'.completed = (t.completed || (t.id == id)))
      (completeTask m id s).tasks s.tasks
    ∧ (∀ t' ∈ (completeTask m id s).tasks, t'.id = id → t'.completed = true) := by
  refine ⟨?_, ?_⟩
  · rw [completeTask_tasks]
    exact completeScan_forall₂ id s.tasks
  · intro t' ht' hid
    rw [completeTask_tasks] at ht'
    exact completeScan_completed id s.tasks t' ht' hid

/-- Witness for C5 amended: duplicate-id state, both matches completed. -/
theorem completeTask_dup_updates_all_witness :
    (¬ (({ tasks := [{ id := 1, description := ("A"), completed := false },
                     { id := 1, description := ("B"), completed := false }],
           nextId := 2, logs := [] } : SessionState).tasks.map Task.id).Nodup)
    ∧ (List.Forall₂
        (fun t' t => t'.id = t.id ∧ t'.description = t.description
          ∧ t'.completed = (t.completed || (t.id == 1)))
        (completeTask m0 1
          { tasks := [{ id := 1, description := ("A"), completed := false },
                      { id := 1, description := ("B"), completed := false }],
            nextId := 2, logs := [] }).tasks
        ({ tasks := [{ id := 1, description := ("A"), completed := false },
                     { id := 1, description := ("B"), completed := false }],
           nextId := 2, logs := [] } : SessionState).tasks
      ∧ (∀ t' ∈ (completeTask m0 1
            { tasks := [{ id := 1, description := ("A"), completed := false },
                        { id := 1, description := ("B"), completed := false }],
              nextId := 2, logs := [] }).tasks, t'.id = 1 → t'.completed = true)) :=
  ⟨by decide, completeTask_dup_updates_all _ m0 1 (by decide)⟩

/-- C6 counterexample: the source arrow function `completeTask` contains
no `return` statement, so every call evaluates to `undefined` (embedded
as `Unit`).  At id 1 the returned value is identical in a state where a
task with id 1 exists and in one where none does, so the result cannot
be a boolean/enum that is true/match exactly on existence. -/
theorem completeTask_result_cex :
    (completeTaskRet m0 1
        { tasks := [{ id := 1, description := ("A"), completed := false }],
          nextId := 2, logs := [] }).2
      = (completeTaskRet m0 1 initState).2
    ∧ (∃ t ∈ ({ tasks := [{ id := 1, description := ("A"), completed := false }],
                nextId := 2, logs := [] } : SessionState).tasks, t.id = 1)
    ∧ ¬ (∃ t ∈ initState.tasks, t.id = 1) := by
  exact ⟨rfl, by decide, by decide⟩

/-- C6 amended: `completeTask(id)` returns no value (`undefined`); the
appended log message is the authoritative record of match/no-match:
`"Task {id} done."` is appended exactly when a task with that id
exists. -/
theorem completeTask_void_log_authoritative (s : SessionState) (m : LogMeta) (id : Int) :
    (completeTaskRet m id s).2 = ()
    ∧ ((completeTaskRet m id s).1.logs
        = s.logs ++ [{ id := m.id, timestamp := m.timestamp,
                       message := (("Task ") : String) ++ toString id ++ (" done.") }]
      ↔ ∃ t ∈ s.tasks, t.id = id) :=
  ⟨rfl, completeTask_done_iff s m id⟩

/-- C9: every `addTask`/`completeTask` call grows `logs` by exactly one
entry, `resetSystem` leaves `logs` of length exactly one, and no
operation other than `resetSystem` removes a log entry or a task
(`addTask`/`completeTask`/`logOutput` only append to or rewrite-in-place
the existing entries). -/
theorem ops_log_growth (s : SessionState) (m : LogMeta) (d : String) (id : Int)
    (msg : String) :
    (addTask m d s).logs.length = s.logs.length + 1
    ∧ (completeTask m id s).logs.length = s.logs.length + 1
    ∧ (resetSystem m s).logs.length = 1
    ∧ (∃ e, (addTask m d s).logs = s.logs ++ [e])
    ∧ (∃ e, (completeTask m id s).logs = s.logs ++ [e])
    ∧ (∃ e, (logOutput m msg s).logs = s.logs ++ [e])
    ∧ (∃ t, (addTask m d s).tasks = s.tasks ++ [t])
    ∧ (completeTask m id s).tasks.length = s.tasks.length
    ∧ (logOutput m msg s).tasks = s.tasks := by
  refine ⟨?_, ?_, rfl, ⟨_, rfl⟩, ⟨_, completeTask_logs m id s⟩, ⟨_, rfl⟩, ⟨_, rfl⟩, ?_, rfl⟩
  · simp [addTask, logOutput]
  · rw [completeTask_logs]
    simp
  · rw [completeTask_tasks, completeScan_length]

/-! ### Shape lemmas for `addTask` and the same-tick startup batch -/

lemma addTask_tasks (m : LogMeta) (d : String) (s : SessionState) :
    (addTask m d s).tasks
      = s.tasks ++ [{ id := s.nextId, description := d, completed := false }] := rfl

lemma addTask_nextId (m : LogMeta) (d : String) (s : SessionState) :
    (addTask m d s).nextId = s.nextId + 1 := rfl

lemma addTaskSameTick_single (m : LogMeta) (d : String) (s : SessionState) :
    addTaskSameTick m d s s = addTask m d s := rfl

/-- C2 failing trace: in the program's own startup batch (App.tsx
lines 240-249) both `addTask` calls read the render-snapshot
`nextId = 1`, so the 2nd call (1-indexed i = 2) creates a task with
id 1, not i = 2, while the functional updaters leave `nextId = 3`.
The claim (and the spec's section 8 scenario, which expects ids 1 and 2)
is the intent; the snapshot read `id: nextId` in the code is the slip. -/
theorem startup_second_addTask_id :
    ((startupEffect m0 m0 m0 initState).tasks.map Task.id = [1, 1])
    ∧ (startupEffect m0 m0 m0 initState).nextId = 3
    ∧ ((startupEffect m0 m0 m0 initState).tasks.map Task.description
        = [("Refactor Legacy Code"), ("Upload Multiple Files")])
    ∧ ((startupEffect m0 m0 m0 initState).logs.map LogEntry.message
        = [("Initializing TaskManager..."), ("Task added: Refactor Legacy Code"),
           ("Task added: Upload Multiple Files")]) := by
  decide

/-- C4 failing state: the startup effect, reached on every run of the
app, leaves two tasks sharing id 1, so the pairwise-distinct-ids
invariant the claim states (and the spec requires) is violated by the
code. -/
theorem startup_duplicate_ids :
    ¬ (((startupEffect m0 m0 m0 initState).tasks.map Task.id).Nodup) := by
  decide

example :
    (addTask m0 ("A") initState).tasks = [{ id := 1, description := ("A"), completed := false }] := by
  decide

example :
    (completeTask m0 1 (addTask m0 ("A") initState)).logs.map LogEntry.message
      = [("Task added: A"), ("Task 1 done.")] := by
  decide

example :
    (completeTask m0 9 (addTask m0 ("A") initState)).logs.map LogEntry.message
      = [("Task added: A"), ("ID not found.")] := by
  decide

example :
    resetSystem m0 (addTask m0 ("A") initState)
      = { tasks := [], nextId := 1,
          logs := [{ id := 0, timestamp := (""), message := ("System reset.") }] } := by
  decide

end TaskApp
